import Mathlib

/-!
Verification of the crowd-analysis telemetry pipeline.

Shallow embedding of the edge analyzer (crowd_analysis.py) and the
collector (server.py): the per-frame detection post-processing, frame-skip
cadence, rolling statistics buffers, the dispatcher's send trigger and
in-flight policy, the wire encoding, and the collector's ingest and
CSV-resync endpoints.  Times are modelled as rationals, machine counters as
naturals, byte strings as lists of naturals (byte values).
-/

namespace Crowd

/-! ## Detection data (crowd_analysis.py, process_frame lines 156-201) -/

/-- Pixel-space bounding box, the (x1, y1, x2, y2) tuples built in
process_frame from the scaled model output. -/
structure Box where
  x1 : Int
  y1 : Int
  x2 : Int
  y2 : Int
deriving DecidableEq, Repr

/-- One raw detector output row: a box together with its class id and
confidence score (boxes, classes, scores tensors). -/
structure RawDetection where
  box : Box
  cls : Nat
  score : ℚ
deriving DecidableEq, Repr

/-- Lines 166-172: keep only detections with score above the threshold
(high_conf_idx = scores > detection_thresh) and with class 0 (person). -/
def filterDetections (thresh : ℚ) (raw : List RawDetection) : List Box :=
  (((raw.filter fun d => thresh < d.score).filter fun d => d.cls = 0).map fun d => d.box)

/-- The values computed per processed frame: detections, count, anomalies. -/
structure DetectionResult where
  count : Nat
  detections : List Box
  anomalies : List Box
deriving DecidableEq, Repr

/-- Lines 156-187 of process_frame: detections start empty with count 0 and
empty anomalies; when there are person boxes, detections is the box list,
count its length, and anomalies is detections[10:] when count > 10. -/
def computeDetections (thresh : ℚ) (raw : List RawDetection) : DetectionResult :=
  let personBoxes := filterDetections thresh raw
  if personBoxes.length > 0 then
    let detections := personBoxes
    let count := detections.length
    let anomalies := if count > 10 then detections.drop 10 else []
    { count := count, detections := detections, anomalies := anomalies }
  else
    { count := 0, detections := [], anomalies := [] }

/-- Lines 219-233, draw_results: returns the tuple
(frame, count, detections, []) - the anomalies component of the returned
tuple is the empty list on both the normal and the exception path. -/
def drawResults (frame : α) (detections : List Box) (count : Nat) :
    α × Nat × List Box × List Box :=
  (frame, count, detections, [])

/-! ## Frame-skip cadence (process_frame lines 116-133) -/

/-- Analyzer state relevant to the frame-skip decision: the running frame
counter and the cached last detections / last count. -/
structure CadenceState where
  frameCounter : Nat
  lastDetections : List Box
  lastCount : Nat
deriving DecidableEq, Repr

/-- Run process_frame's cadence logic over a sequence of frames.  Each call
first increments frame_counter (line 116); if the new counter value is not
a multiple of process_every the frame is skipped and the cached results are
reused (lines 122-133, via draw_cached_results); otherwise the detector is
invoked (`detect`, indexed by the counter value) and its result is cached
(lines 188-190).  Returns the final state and the number of frames on
which the detector was invoked. -/
def runFrames (K : Nat) (detect : Nat → DetectionResult) :
    Nat → CadenceState → CadenceState × Nat
  | 0, s => (s, 0)
  | n + 1, s =>
    let c := s.frameCounter + 1
    if c % K = 0 then
      let r := detect c
      let rest := runFrames K detect n
        { frameCounter := c, lastDetections := r.detections, lastCount := r.count }
      (rest.1, rest.2 + 1)
    else
      runFrames K detect n { s with frameCounter := c }

/-- Invocation count of runFrames, relative to the starting counter: the
number of counter values in (c, c + n] divisible by K. -/
lemma runFrames_invocations (K : Nat) (detect : Nat → DetectionResult) :
    ∀ (n c : Nat) (ds : List Box) (cnt : Nat),
      (runFrames K detect n ⟨c, ds, cnt⟩).2 + c / K = (c + n) / K := by
  intro n
  induction n with
  | zero => intro c ds cnt; simp [runFrames]
  | succ n ih =>
    intro c ds cnt
    have harith : c + (n + 1) = c + 1 + n := by omega
    by_cases h : (c + 1) % K = 0
    · have hdvd : K ∣ c + 1 := Nat.dvd_iff_mod_eq_zero.mpr h
      have hsucc : (c + 1) / K = c / K + 1 := by
        simp [Nat.succ_div, hdvd]
      have hrec := ih (c + 1) (detect (c + 1)).detections (detect (c + 1)).count
      rw [harith]
      simp only [runFrames, h, if_pos]
      omega
    · have hdvd : ¬ K ∣ c + 1 := fun hd => h (Nat.dvd_iff_mod_eq_zero.mp hd)
      have hsucc : (c + 1) / K = c / K := by
        simp [Nat.succ_div, hdvd]
      have hrec := ih (c + 1) ds cnt
      rw [harith]
      simp only [runFrames, h, if_neg, if_false]
      omega

/-! ## Rolling statistics buffers (deque(maxlen=15), lines 94-96, 192-197) -/

/-- collections.deque append with a maximum length: append on the right,
evicting from the left when the bound is exceeded. -/
def dequeAppend (maxlen : Nat) (xs : List α) (x : α) : List α :=
  let ys := xs ++ [x]
  ys.drop (ys.length - maxlen)

lemma dequeAppend_length (maxlen : Nat) (xs : List α) (x : α) :
    (dequeAppend maxlen xs x).length = min (xs.length + 1) maxlen := by
  simp [dequeAppend]
  omega

/-- Line 196: after each processed frame, len(anomalies) is appended to
anomalies_log (bounded at 15 entries), whether or not it is zero. -/
def recordFrame (log : List Nat) (anomalyCount : Nat) : List Nat :=
  dequeAppend 15 log anomalyCount

/-- Line 241 of get_statistics: the reported "anomalies" value is
len(self.anomalies_log), the number of samples in the rolling window. -/
def anomaliesStat (log : List Nat) : Nat :=
  log.length

lemma foldl_recordFrame_length :
    ∀ (counts : List Nat) (log : List Nat), log.length ≤ 15 →
      (counts.foldl recordFrame log).length = min (log.length + counts.length) 15 := by
  intro counts
  induction counts with
  | nil => intro log h; simp; omega
  | cons c cs ih =>
    intro log h
    have hlen : (recordFrame log c).length = min (log.length + 1) 15 :=
      dequeAppend_length 15 log c
    have hle : (recordFrame log c).length ≤ 15 := by omega
    have := ih (recordFrame log c) hle
    simp only [List.foldl_cons, List.length_cons]
    omega

/-- Unconditional characterization of the per-frame detection values:
detections is the filtered person-box list, count its length, anomalies
the part of the list past index 10 when more than 10 people are seen. -/
lemma computeDetections_eq (thresh : ℚ) (raw : List RawDetection) :
    computeDetections thresh raw =
      { count := (filterDetections thresh raw).length,
        detections := filterDetections thresh raw,
        anomalies := if 10 < (filterDetections thresh raw).length
                     then (filterDetections thresh raw).drop 10 else [] } := by
  unfold computeDetections
  by_cases hp : 0 < (filterDetections thresh raw).length
  · simp [hp]
  · have h0 : filterDetections thresh raw = [] := by
      have := Nat.eq_zero_of_not_pos hp
      exact List.length_eq_zero.mp this
    simp [hp, h0]

/-! ## Claim C4: frame-skip invocation count -/

/-- Eleven person detections with full confidence, a concrete detector
output used by concrete instances below. -/
def rawEleven : List RawDetection :=
  (List.range 11).map fun i => { box := ⟨i, 0, i, 0⟩, cls := 0, score := 1 }

/-- Claim C4 is false as stated: with skip factor K = 2 and a fresh
analyzer, a sequence of N = 1 frame invokes the detector 0 times, while
ceil(1/2) = 1.  The first frame gets counter value 1, which is not a
multiple of 2, so it is skipped. -/
theorem c4_counterexample :
    (runFrames 2 (fun _ => computeDetections 0 []) 1 ⟨0, [], 0⟩).2 = 0 ∧
    (1 + 2 - 1) / 2 = 1 ∧
    ¬ (runFrames 2 (fun _ => computeDetections 0 []) 1 ⟨0, [], 0⟩).2 = (1 + 2 - 1) / 2 := by
  refine ⟨rfl, rfl, ?_⟩
  intro h
  simp [runFrames] at h

/-- Claim C4 amended: over N consecutive frames with fixed skip factor K
from a fresh analyzer, exactly floor(N/K) frames invoke the detector (the
frames whose 1-based index is a multiple of K), not ceil(N/K); every
skipped frame leaves the cached detections and count unchanged and
produces no new detector invocation. -/
theorem c4_amended (K N : Nat) (detect : Nat → DetectionResult) :
    (runFrames K detect N ⟨0, [], 0⟩).2 = N / K ∧
    ∀ s : CadenceState, ¬ ((s.frameCounter + 1) % K = 0) →
      runFrames K detect 1 s = ({ s with frameCounter := s.frameCounter + 1 }, 0) := by
  constructor
  · have h := runFrames_invocations K detect N 0 [] 0
    simpa using h
  · intro s hs
    simp [runFrames, hs]

/-- Witness for C4 amended: with K = 2 over N = 3 frames the detector runs
exactly 3 / 2 = 1 time, and a frame arriving at counter 2 (so counter
becomes 3, not a multiple of 2) is skipped with the cache untouched. -/
theorem c4_amended_witness :
    (runFrames 2 (fun _ => computeDetections 0 []) 3 ⟨0, [], 0⟩).2 = 3 / 2 ∧
    runFrames 2 (fun _ => computeDetections 0 []) 1 ⟨2, [], 0⟩ =
      ({ frameCounter := 3, lastDetections := [], lastCount := 0 }, 0) :=
  ⟨(c4_amended 2 3 (fun _ => computeDetections 0 [])).1,
   (c4_amended 2 1 (fun _ => computeDetections 0 [])).2 ⟨2, [], 0⟩ (by decide)⟩

/-! ## Claim C6: DetectionResult invariant -/

/-- Claim C6 is false as stated for the DetectionResult tuple that
process_frame returns: at a frame with 11 confident person detections the
internally computed anomalies list is non-empty, but the tuple returned by
draw_results carries count 11 together with an empty anomalies component,
so "anomalies is non-empty iff count > 10" fails on the produced result. -/
theorem c6_counterexample :
    (computeDetections 0 rawEleven).count = 11 ∧
    (computeDetections 0 rawEleven).anomalies ≠ [] ∧
    (drawResults () (computeDetections 0 rawEleven).detections
        (computeDetections 0 rawEleven).count).2.2.2 = ([] : List Box) := by
  decide

/-- Claim C6 amended: the internally computed per-frame values satisfy the
invariant - count equals the number of detections, anomalies equals
detections[10:] when count > 10 and is empty otherwise, so the internal
anomalies list is non-empty iff count > 10 - but the result tuple returned
by process_frame via draw_results always has an empty anomalies
component. -/
theorem c6_amended (thresh : ℚ) (raw : List RawDetection) :
    (computeDetections thresh raw).count = (computeDetections thresh raw).detections.length ∧
    (computeDetections thresh raw).anomalies =
      (if 10 < (computeDetections thresh raw).count
        then (computeDetections thresh raw).detections.drop 10 else []) ∧
    ((computeDetections thresh raw).anomalies ≠ [] ↔
      10 < (computeDetections thresh raw).count) ∧
    (drawResults () (computeDetections thresh raw).detections
        (computeDetections thresh raw).count).2.2.2 = ([] : List Box) := by
  rw [computeDetections_eq]
  refine ⟨rfl, rfl, ?_, rfl⟩
  by_cases h10 : 10 < (filterDetections thresh raw).length
  · have hlen : ((filterDetections thresh raw).drop 10).length =
        (filterDetections thresh raw).length - 10 := by simp
    have hne : (filterDetections thresh raw).drop 10 ≠ [] := by
      intro hnil
      rw [hnil] at hlen
      simp at hlen
      omega
    simp [h10, hne]
  · simp [h10]

/-! ## Claim C10: the reported anomalies statistic -/

/-- Claim C10: after processing a sequence of frames whose per-frame
anomaly counts are `counts`, the "anomalies" value that get_statistics
reports equals the number of samples in the rolling window, min(number of
frames, 15); in particular it is positive as soon as one frame has been
processed, regardless of the anomaly counts themselves. -/
theorem c10_anomalies_window_count (counts : List Nat) :
    anomaliesStat (counts.foldl recordFrame []) = min counts.length 15 ∧
    (counts ≠ [] → 0 < anomaliesStat (counts.foldl recordFrame [])) := by
  have h := foldl_recordFrame_length counts [] (by simp)
  constructor
  · simpa [anomaliesStat] using h
  · intro hne
    have hpos : 0 < counts.length := List.length_pos.mpr hne
    simp only [anomaliesStat] at *
    omega

/-- Witness for C10: three frames each with zero anomalies still yield an
"anomalies" statistic of 3 (the window sample count), which is positive. -/
theorem c10_witness :
    anomaliesStat ([0, 0, 0].foldl recordFrame []) = min 3 15 ∧
    0 < anomaliesStat ([0, 0, 0].foldl recordFrame []) :=
  ⟨(c10_anomalies_window_count [0, 0, 0]).1,
   (c10_anomalies_window_count [0, 0, 0]).2 (by decide)⟩

/-! ## Claim C9: the fps statistic and division by zero -/

/-- Python float division: raises ZeroDivisionError when the divisor is
zero, modelled here as none. -/
def pyDiv (a b : ℚ) : Option ℚ :=
  if b = 0 then none else some (a / b)

/-- Line 242 of get_statistics: fps is len(processing_times) divided by
(sum(processing_times) / 1000) when the buffer is non-empty, and the
literal 0 when the buffer is empty. -/
def fpsStat (processingTimes : List ℚ) : Option ℚ :=
  if processingTimes.isEmpty then some 0
  else pyDiv (processingTimes.length : ℚ) (processingTimes.sum / 1000)

/-- Claim C9 is false as stated: the buffer reached after one processed
frame whose recorded processing time rounds to 0.0 ms is non-empty, the
emptiness guard passes, and the fps computation divides by zero
(ZeroDivisionError), so get_statistics can raise. -/
theorem c9_counterexample :
    fpsStat (dequeAppend 15 [] 0) = none := by
  simp [fpsStat, dequeAppend, pyDiv]

/-- Claim C9 amended: fps equals sampleCount / (sum(processingTimeMs)/1000)
whenever the buffer is non-empty with a non-zero total, and 0 when the
buffer is empty; the emptiness guard alone does not rule out division by
zero, which occurs exactly when a non-empty buffer sums to zero. -/
theorem c9_amended (ts : List ℚ) (h : ts = [] ∨ ts.sum ≠ 0) :
    fpsStat ts = some (if ts.isEmpty then 0 else (ts.length : ℚ) / (ts.sum / 1000)) := by
  rcases h with h | h
  · subst h; simp [fpsStat]
  · have hts : ¬ ts.isEmpty := by
      intro hh
      exact h (by simp [List.isEmpty_iff.mp hh])
    have hdiv : ts.sum / 1000 ≠ 0 := by
      intro hh
      rcases div_eq_zero_iff.mp hh with h1 | h1
      · exact h h1
      · norm_num at h1
    simp [fpsStat, hts, pyDiv, hdiv]

/-- Witness for C9 amended: the empty buffer reports fps 0. -/
theorem c9_witness : fpsStat ([] : List ℚ) = some 0 := by
  simpa using c9_amended [] (Or.inl rfl)

/-! ## Dispatcher: the payload and the send trigger
(crowd_analysis.py lines 203-207 and 246-305) -/

/-- The payload dict built in send_data_to_server (lines 262-269):
timestamp, count, detections (lists of four ints), frame_data (base64
text), anomalies (a length), device_id. -/
structure Payload where
  timestamp : String
  count : Nat
  detections : List (List Int)
  frameData : String
  anomalies : Nat
  deviceId : String
deriving DecidableEq, Repr

/-- A concrete payload used by concrete instances below. -/
def samplePayload : Payload :=
  { timestamp := "2025-01-01T00:00:00", count := 15,
    detections := [[0, 0, 10, 10]], frameData := "", anomalies := 5,
    deviceId := "raspberry_pi" }

/-- Line 205: the heartbeat condition
current_time - last_send_time >= advanced_analytics_interval. -/
def heartbeatDue (interval lastSendTime now : ℚ) : Bool :=
  decide (interval ≤ now - lastSendTime)

/-- Lines 203-207 of process_frame: after a frame is processed with people
count `count`, a send is attempted iff the heartbeat time has elapsed; the
count computed for the frame takes no part in the decision. -/
def processedFrameSends (interval lastSendTime now : ℚ) (count : Nat) : Bool :=
  heartbeatDue interval lastSendTime now

/-- Claim C1 is false as stated: a frame with count 15 (above the anomaly
threshold 10) processed when the last send happened just now (elapsed time
0, heartbeat interval 3) attempts no send - there is no count-based
immediate trigger in the code. -/
theorem c1_counterexample :
    processedFrameSends 3 100 100 15 = false ∧ 10 < 15 := by
  constructor
  · simp only [processedFrameSends, heartbeatDue, decide_eq_false_iff_not]
    norm_num
  · norm_num

/-- Claim C1 amended: the send trigger fires iff
now - lastSendTime >= heartbeatInterval; the person count has no effect on
the trigger, so a count = 15 frame starts a send attempt only when the
heartbeat interval has already elapsed. -/
theorem c1_amended (interval lastSendTime now : ℚ) (count count' : Nat) :
    (processedFrameSends interval lastSendTime now count = true ↔
      interval ≤ now - lastSendTime) ∧
    processedFrameSends interval lastSendTime now count =
      processedFrameSends interval lastSendTime now count' := by
  constructor
  · simp [processedFrameSends, heartbeatDue]
  · rfl

/-! ## Dispatcher: at-most-one-in-flight (lines 271-274, 279-305) -/

/-- Dispatcher transmission state: whether the send thread is alive
(in flight), plus bookkeeping of which payloads had a send started for
them and which were dropped. -/
structure DispatcherState where
  inFlight : Bool
  started : List Payload
  dropped : List Payload
deriving DecidableEq, Repr

/-- Lines 271-274 of send_data_to_server: a new send thread is started for
the payload only when no send thread exists or the previous one is no
longer alive; otherwise nothing is started or queued and the candidate
payload is dropped from transmission. -/
def sendDataToServer (s : DispatcherState) (p : Payload) : DispatcherState :=
  if s.inFlight then
    { s with dropped := p :: s.dropped }
  else
    { s with inFlight := true, started := p :: s.started }

/-- Completion of the send thread (end of send_data_thread): the thread is
no longer alive. -/
def sendComplete (s : DispatcherState) : DispatcherState :=
  { s with inFlight := false }

/-- Claim C5: while a send is in flight, a new trigger starts no second
send - the set of started sends is unchanged and the first send stays in
flight - and the candidate payload is dropped from transmission rather
than queued. -/
theorem c5_at_most_one_in_flight (s : DispatcherState) (p : Payload)
    (h : s.inFlight = true) :
    (sendDataToServer s p).started = s.started ∧
    (sendDataToServer s p).inFlight = true ∧
    (sendDataToServer s p).dropped = p :: s.dropped := by
  simp [sendDataToServer, h]

/-- Witness for C5: a concrete in-flight state with one started send; a
second trigger starts nothing and drops its payload. -/
theorem c5_witness :
    (sendDataToServer ⟨true, [samplePayload], []⟩ samplePayload).started = [samplePayload] ∧
    (sendDataToServer ⟨true, [samplePayload], []⟩ samplePayload).inFlight = true ∧
    (sendDataToServer ⟨true, [samplePayload], []⟩ samplePayload).dropped = [samplePayload] :=
  c5_at_most_one_in_flight ⟨true, [samplePayload], []⟩ samplePayload rfl

/-! ## Dispatcher: failure path and the fallback log (lines 97-103, 279-305) -/

/-- Outcome of the HTTP post in send_data_thread: a 200 response, a
non-200 response, or a raised exception (timeout, connection error). -/
inductive SendOutcome where
  | success
  | statusCode (code : Nat)
  | exception
deriving DecidableEq, Repr

/-- Contents of crowd_cache.csv after initialization (lines 100-103): a
single header line, written once when the file does not yet exist. -/
def initCacheFile : List String :=
  ["timestamp,count,detections,frame_data,processing_time_ms"]

/-- Lines 279-305, send_data_thread: the effect of one send attempt on the
local fallback log (crowd_cache.csv).  Every branch - success (line 293),
non-200 status (lines 294-301) and exception (lines 303-305) - only writes
to the logger; no branch appends a line to the fallback log, so the log is
returned unchanged for every outcome. -/
def sendDataThreadFallbackLines (p : Payload) (outcome : SendOutcome)
    (fallbackLog : List String) : List String :=
  fallbackLog

/-- Claim C2 evaluated at a failing send: a send attempt that raises an
exception leaves the fallback log exactly as initialized - it gains zero
lines, not one line recording (timestamp, count, detections). -/
theorem c2_no_fallback_write :
    sendDataThreadFallbackLines samplePayload SendOutcome.exception initCacheFile =
      initCacheFile ∧
    (sendDataThreadFallbackLines samplePayload SendOutcome.exception initCacheFile).length =
      initCacheFile.length := by
  exact ⟨rfl, rfl⟩

/-! ## Wire encoding: dispatcher body versus collector decompression
(crowd_analysis.py lines 286-290, server.py lines 57-61) -/

/-- JSON escaping of one character: quote and backslash get a backslash
prefix (byte 92); other characters stand for themselves. -/
def jsonEscapeChar (c : Char) : List Nat :=
  if c = '"' ∨ c = '\\' then [92, c.toNat] else [c.toNat]

/-- JSON string literal as bytes: quote (34), escaped characters, quote. -/
def jsonStringBytes (s : String) : List Nat :=
  34 :: (s.toList.foldr (fun c acc => jsonEscapeChar c ++ acc) [34])

/-- Decimal numeral bytes of a natural number. -/
def jsonNatBytes (n : Nat) : List Nat :=
  (Nat.repr n).toList.map Char.toNat

/-- Decimal numeral bytes of an integer. -/
def jsonIntBytes (i : Int) : List Nat :=
  i.repr.toList.map Char.toNat

/-- Comma-space separated concatenation, the default json.dumps item
separator. -/
def joinCommaSpace : List (List Nat) → List Nat
  | [] => []
  | [x] => x
  | x :: y :: ys => x ++ [44, 32] ++ joinCommaSpace (y :: ys)

/-- JSON array as bytes: bracket (91), comma-space separated items,
bracket (93). -/
def jsonArrayBytes (enc : α → List Nat) (xs : List α) : List Nat :=
  91 :: (joinCommaSpace (xs.map enc) ++ [93])

/-- One key-value member of a JSON object: key string, colon-space, value. -/
def jsonMemberBytes (key : String) (value : List Nat) : List Nat :=
  jsonStringBytes key ++ [58, 32] ++ value

/-- The body that requests.post(url, json=payload) transmits (line 286-290
of send_data_thread): the JSON text of the payload dict, in insertion
order, with no compression applied.  Its first byte is the opening brace
(123). -/
def jsonEncodePayload (p : Payload) : List Nat :=
  123 :: (joinCommaSpace
    [jsonMemberBytes "timestamp" (jsonStringBytes p.timestamp),
     jsonMemberBytes "count" (jsonNatBytes p.count),
     jsonMemberBytes "detections" (jsonArrayBytes (jsonArrayBytes jsonIntBytes) p.detections),
     jsonMemberBytes "frame_data" (jsonStringBytes p.frameData),
     jsonMemberBytes "anomalies" (jsonNatBytes p.anomalies),
     jsonMemberBytes "device_id" (jsonStringBytes p.deviceId)] ++ [125])

/-- Zlib stream header check per RFC 1950, which zlib.decompress (line 60
of receive_data) performs on the first two body bytes before inflating:
the low nibble of the first byte must be compression method 8, its high
nibble (the window size) at most 7, and the two bytes read as a big-endian
number must be divisible by 31.  A body failing this check makes
zlib.decompress raise, so receive_data returns a 500 error. -/
def zlibHeaderOk (bytes : List Nat) : Bool :=
  match bytes with
  | cmf :: flg :: _ => cmf % 16 == 8 && cmf / 16 ≤ 7 && (cmf * 256 + flg) % 31 == 0
  | _ => false

/-- Claim C3 evaluated: for every payload the dispatcher can build, the
body it actually transmits is uncompressed JSON text beginning with the
brace byte 123, whose compression-method nibble is 11, not 8; the
collector's zlib decompression therefore rejects every live send, and no
record round-trips.  The compression step the claim describes does not
exist in the dispatcher. -/
theorem c3_collector_rejects_wire_body (p : Payload) :
    zlibHeaderOk (jsonEncodePayload p) = false := by
  rfl

/-! ## Collector store (server.py, init_db and receive_data) -/

/-- Byte list to text, for values stored as strings in the database. -/
def bytesToString (bs : List Nat) : String :=
  String.mk (bs.map Char.ofNat)

/-- json.dumps of the detections value stored in the crowd_data row
(line 81 of receive_data). -/
def dumpsDetections (ds : List (List Int)) : String :=
  bytesToString (jsonArrayBytes (jsonArrayBytes jsonIntBytes) ds)

/-- One row of the crowd_data table: device_id, count, detections (JSON
text), timestamp. -/
structure CrowdRow where
  deviceId : String
  count : Int
  detections : String
  timestamp : String
deriving DecidableEq, Repr

/-- One row of the devices table, keyed by device_id. -/
structure DeviceRow where
  deviceId : String
  lastSeen : String
  ipAddress : String
deriving DecidableEq, Repr

/-- One row of the anomalies table. -/
structure AnomalyRow where
  deviceId : String
  count : Int
  timestamp : String
deriving DecidableEq, Repr

/-- The collector's store: the three tables of crowd_data.db. -/
structure Db where
  crowdData : List CrowdRow
  devices : List DeviceRow
  anomalies : List AnomalyRow
deriving DecidableEq, Repr

/-- INSERT OR REPLACE INTO devices keyed on device_id (lines 85-88): any
existing row for the device is replaced. -/
def upsertDevice (devices : List DeviceRow) (deviceId now ip : String) : List DeviceRow :=
  (devices.filter fun r => r.deviceId ≠ deviceId) ++
    [{ deviceId := deviceId, lastSeen := now, ipAddress := ip }]

/-- Response status of receive_data: 200 with a success body, or 400 for a
payload missing a required field. -/
inductive IngestResult where
  | accepted
  | clientError
deriving DecidableEq, Repr

/-- The decoded ingest payload as receive_data inspects it: the two
required fields may be absent; detections defaults to the empty list
(data.get). -/
structure IngestData where
  count? : Option Int
  timestamp? : Option String
  detections : List (List Int)
deriving DecidableEq, Repr

/-- Lines 54-100 of receive_data, after the body has been decompressed and
parsed: if count or timestamp is missing the request is rejected with a
400 error before any database access; otherwise a crowd_data row is
inserted, the device row is upserted, and an anomaly row is appended when
count exceeds 10. -/
def receiveData (deviceId ip now : String) (data : IngestData) (db : Db) :
    IngestResult × Db :=
  match data.count?, data.timestamp? with
  | some count, some ts =>
    let db1 := { db with crowdData := db.crowdData ++
      [({ deviceId := deviceId, count := count,
          detections := dumpsDetections data.detections, timestamp := ts } : CrowdRow)] }
    let db2 := { db1 with devices := upsertDevice db1.devices deviceId now ip }
    let db3 :=
      if 10 < count then
        { db2 with anomalies := db2.anomalies ++
          [({ deviceId := deviceId, count := count, timestamp := ts } : AnomalyRow)] }
      else db2
    (IngestResult.accepted, db3)
  | _, _ => (IngestResult.clientError, db)

/-- Claim C7: a decoded payload missing count or missing timestamp is
rejected with the client-error response and the store is untouched - no
crowd-data row is appended and the device and anomaly tables are exactly
as before. -/
theorem c7_missing_fields_reject (deviceId ip now : String) (data : IngestData) (db : Db)
    (h : data.count? = none ∨ data.timestamp? = none) :
    receiveData deviceId ip now data db = (IngestResult.clientError, db) ∧
    (receiveData deviceId ip now data db).2.crowdData.length = db.crowdData.length ∧
    (receiveData deviceId ip now data db).2.devices = db.devices ∧
    (receiveData deviceId ip now data db).2.anomalies = db.anomalies := by
  have hmain : receiveData deviceId ip now data db = (IngestResult.clientError, db) := by
    cases hc : data.count? <;> cases ht : data.timestamp? <;>
      simp_all [receiveData]
  rw [hmain]
  exact ⟨rfl, rfl, rfl, rfl⟩

/-- A decoded payload with a timestamp but no count field. -/
def missingCountData : IngestData :=
  { count? := none, timestamp? := some "2025-01-01T00:00:00", detections := [] }

/-- A store already holding one row of each kind. -/
def seededDb : Db :=
  { crowdData := [{ deviceId := "d", count := 1, detections := "[]", timestamp := "t0" }],
    devices := [{ deviceId := "d", lastSeen := "t0", ipAddress := "ip" }],
    anomalies := [{ deviceId := "d", count := 11, timestamp := "t0" }] }

/-- Witness for C7: a payload with a timestamp but no count, against a
store holding one row of each kind, is rejected and changes nothing. -/
theorem c7_witness :
    receiveData "default_device" "127.0.0.1" "2025-01-01T00:00:00" missingCountData seededDb =
      (IngestResult.clientError, seededDb) :=
  (c7_missing_fields_reject "default_device" "127.0.0.1" "2025-01-01T00:00:00"
    missingCountData seededDb (Or.inl rfl)).1

/-! ## Resync endpoint (server.py, sync_csv lines 204-228) -/

/-- Characters removed by Python str.strip() at either end of a line. -/
def isPySpace (c : Char) : Bool :=
  c = ' ' ∨ c = '\t' ∨ c = '\n' ∨ c = '\r'

/-- Python str.strip(): whitespace removed from both ends. -/
def pyStrip (s : String) : String :=
  String.mk (((s.toList.dropWhile isPySpace).reverse.dropWhile isPySpace).reverse)

/-- Python str.split on a comma: the list of maximal comma-free chunks. -/
def splitOnComma : List Char → List (List Char)
  | [] => [[]]
  | c :: cs =>
    match splitOnComma cs with
    | [] => [[]]
    | f :: rest => if c = ',' then [] :: f :: rest else (c :: f) :: rest

/-- Line 216 of sync_csv: the stripped line split on commas. -/
def lineFields (line : String) : List String :=
  (splitOnComma (pyStrip line).toList).map fun cs => String.mk cs

/-- Value of a decimal digit character. -/
def digitVal (c : Char) : Option Nat :=
  if '0' ≤ c ∧ c ≤ '9' then some (c.toNat - 48) else none

/-- Accumulating decimal parse; fails on any non-digit. -/
def parseDigitsAux : Nat → List Char → Option Nat
  | acc, [] => some acc
  | acc, c :: cs =>
    match digitVal c with
    | some d => parseDigitsAux (10 * acc + d) cs
    | none => none

/-- Python int(str): an optional sign followed by at least one decimal
digit; anything else raises ValueError, modelled as none. -/
def parsePyInt (s : String) : Option Int :=
  match s.toList with
  | [] => none
  | '-' :: cs => if cs.isEmpty then none else (parseDigitsAux 0 cs).map fun n => -(n : Int)
  | '+' :: cs => if cs.isEmpty then none else (parseDigitsAux 0 cs).map fun n => (n : Int)
  | cs => (parseDigitsAux 0 cs).map fun n => (n : Int)

/-- Lines 215-220 of sync_csv, one line of the uploaded file: the stripped
line must split into exactly three comma-separated fields
(timestamp, count, detections) - otherwise the tuple unpacking raises - and
the count field must parse as an integer.  The parsed row carries the
device id from the request header. -/
def parseLine (deviceId : String) (line : String) : Option CrowdRow :=
  match lineFields line with
  | [ts, cnt, dets] =>
    (parsePyInt cnt).map fun n =>
      { deviceId := deviceId, count := n, detections := dets, timestamp := ts }
  | _ => none

/-- All lines of the uploaded file in order; any failing line fails the
whole request. -/
def parseLines (deviceId : String) : List String → Option (List CrowdRow)
  | [] => some []
  | l :: ls =>
    match parseLine deviceId l, parseLines deviceId ls with
    | some r, some rs => some (r :: rs)
    | _, _ => none

/-- Body of the sync_csv success response. -/
structure SyncResponse where
  status : String
  rowsSynced : String
deriving DecidableEq, Repr

/-- Outcome of sync_csv: 200 with the success body, or 500 when a line
fails to parse. -/
inductive SyncResult where
  | ok (resp : SyncResponse)
  | serverError
deriving DecidableEq, Repr

/-- Lines 204-228 of sync_csv.  Each parsed line is inserted with INSERT
OR IGNORE, but the crowd_data table's only constraint is its autoincrement
primary key, so no conflict can arise and every insert appends a row,
duplicates included.  If any line fails to parse, the raised exception
skips conn.commit(), the implicit transaction is discarded when the
connection closes, and a 500 error is returned with the store unchanged.
On success the response body is status "success" with rows_synced set to
the literal string "variable". -/
def syncCsv (deviceId : String) (lines : List String) (db : Db) : SyncResult × Db :=
  match parseLines deviceId lines with
  | some rows =>
    (SyncResult.ok { status := "success", rowsSynced := "variable" },
     { db with crowdData := db.crowdData ++ rows })
  | none => (SyncResult.serverError, db)

lemma parseLines_length (deviceId : String) :
    ∀ (lines : List String) (rows : List CrowdRow),
      parseLines deviceId lines = some rows → rows.length = lines.length := by
  intro lines
  induction lines with
  | nil => intro rows h; simp [parseLines] at h; simp [← h]
  | cons l ls ih =>
    intro rows h
    simp only [parseLines] at h
    cases hl : parseLine deviceId l with
    | none => rw [hl] at h; simp at h
    | some r =>
      rw [hl] at h
      cases hls : parseLines deviceId ls with
      | none => rw [hls] at h; simp at h
      | some rs =>
        rw [hls] at h
        simp at h
        have := ih rs hls
        simp [← h, this]

/-- Claim C8 is false as stated: syncing a single fallback line that is an
exact duplicate of a row already stored appends a second copy (the row
count goes from 1 to 2 - OR IGNORE never fires because the table has no
uniqueness constraint), and the response reports the literal string
"variable", not a count of rows processed. -/
theorem c8_counterexample :
    (syncCsv "default_device" ["t1,5,[]"]
        { crowdData := [{ deviceId := "default_device", count := 5,
                          detections := "[]", timestamp := "t1" }],
          devices := [], anomalies := [] }).2.crowdData =
      [{ deviceId := "default_device", count := 5, detections := "[]", timestamp := "t1" },
       { deviceId := "default_device", count := 5, detections := "[]", timestamp := "t1" }] ∧
    (syncCsv "default_device" ["t1,5,[]"]
        { crowdData := [{ deviceId := "default_device", count := 5,
                          detections := "[]", timestamp := "t1" }],
          devices := [], anomalies := [] }).1 =
      SyncResult.ok { status := "success", rowsSynced := "variable" } := by
  decide

/-- Claim C8 amended: when every uploaded line parses as
(timestamp, count, detections) - exactly three comma-separated fields with
an integer count - the endpoint inserts one crowd-data row per line in
order, without ignoring duplicates (the store grows by exactly the number
of lines no matter what it already contains), and returns the constant
string "variable" in rows_synced rather than a count of rows processed. -/
theorem c8_amended (deviceId : String) (lines : List String) (db : Db)
    (rows : List CrowdRow) (h : parseLines deviceId lines = some rows) :
    syncCsv deviceId lines db =
      (SyncResult.ok { status := "success", rowsSynced := "variable" },
       { db with crowdData := db.crowdData ++ rows }) ∧
    rows.length = lines.length ∧
    (syncCsv deviceId lines db).2.crowdData.length =
      db.crowdData.length + lines.length := by
  have hlen := parseLines_length deviceId lines rows h
  have hmain : syncCsv deviceId lines db =
      (SyncResult.ok { status := "success", rowsSynced := "variable" },
       { db with crowdData := db.crowdData ++ rows }) := by
    simp [syncCsv, h]
  refine ⟨hmain, hlen, ?_⟩
  rw [hmain]
  simp [hlen]

/-- Witness for C8 amended: one well-formed line against an empty store
yields exactly one appended row and the "variable" response. -/
theorem c8_witness :
    syncCsv "default_device" ["t1,5,[]"] { crowdData := [], devices := [], anomalies := [] } =
      (SyncResult.ok { status := "success", rowsSynced := "variable" },
       { crowdData := [] ++ [{ deviceId := "default_device", count := 5,
                               detections := "[]", timestamp := "t1" }],
         devices := [], anomalies := [] }) ∧
    [({ deviceId := "default_device", count := 5, detections := "[]",
        timestamp := "t1" } : CrowdRow)].length = ["t1,5,[]"].length ∧
    (syncCsv "default_device" ["t1,5,[]"]
        { crowdData := [], devices := [], anomalies := [] }).2.crowdData.length =
      ([] : List CrowdRow).length + ["t1,5,[]"].length :=
  c8_amended "default_device" ["t1,5,[]"]
    { crowdData := [], devices := [], anomalies := [] }
    [{ deviceId := "default_device", count := 5, detections := "[]", timestamp := "t1" }]
    (by decide)

end Crowd
